import Mathlib

/-!
Verification of the meeting-notes server (`server.js`)

Shallow embedding of the Express backend of the AI-powered meeting-notes
application: the two endpoints `POST /api/summarize` and `POST /api/share`,
the summarization function `generateSummary` (with its deterministic local
fallback `generateSimpleSummary`) and the delivery function `sendEmail`.

External collaborators (the hosted completion API reached through `axios`,
and the SendGrid transport) are modelled as oracle parameters:
* the completion call is an `Except String String` value (error or the
  extracted completion text);
* the per-recipient delivery call is a function
  `String → Except String Unit`.

JavaScript truthiness of the optional string-valued request fields
(`undefined` and `""` are falsy) is captured by `jsTruthy`.  Handlers are
instrumented to also return how many outbound calls were issued, so the
"no delivery attempt / no outbound call" parts of the spec are provable.
-/

/-- Truthiness of an optional JS string value: `undefined`/absent and the
empty string are falsy, every other string is truthy. -/
def jsTruthy : Option String → Bool
  | none => false
  | some s => s != ""

/-- JS `String.prototype.trim()`: strip leading and trailing whitespace.
(JS strips the full Unicode WhiteSpace/LineTerminator classes; the
transcripts here are modelled up to the ASCII whitespace characters.) -/
def jsTrim (s : String) : String :=
  String.mk (((s.data.dropWhile Char.isWhitespace).reverse.dropWhile Char.isWhitespace).reverse)

/-- JS `String.prototype.startsWith`, computed over the character lists. -/
def jsStartsWith (s pre : String) : Bool :=
  pre.data.isPrefixOf s.data

/-- The characters the fallback summarizer splits on: the regex class
`[.!?]` of `transcript.split(/[.!?]+/)`. -/
def isSentenceTerminator (c : Char) : Bool :=
  c = '.' || c = '!' || c = '?'

/-- JavaScript-style split on the regex `[.!?]+`: a maximal run of
sentence terminators is a single separator, so consecutive terminators do
not create empty fragments between them (unlike a char-by-char split).
`[]` maps to `[[]]`, matching `"".split(/[.!?]+/) = [""]`. -/
def splitTerminatorRuns : List Char → List (List Char)
  | [] => [[]]
  | c :: cs =>
    if isSentenceTerminator c then
      match cs with
      | [] => [[], []]
      | d :: _ =>
        if isSentenceTerminator d then
          splitTerminatorRuns cs
        else
          [] :: splitTerminatorRuns cs
    else
      match splitTerminatorRuns cs with
      | [] => [[c]]
      | frag :: rest => (c :: frag) :: rest

/-- The split `transcript.split(/[.!?]+/)` as a list of strings. -/
def sentenceFragments (transcript : String) : List String :=
  (splitTerminatorRuns transcript.data).map (fun cs => String.mk cs)

/-- The fragments surviving `.filter(s => s.trim().length > 10)`. -/
def qualifyingFragments (transcript : String) : List String :=
  (sentenceFragments transcript).filter (fun s => (jsTrim s).length > 10)

/-- The bullet marker prepended to each key point (the literal glyph used
in the source's template string). -/
def bulletMarker : String := "• "

/-- The function `generateSimpleSummary(transcript, customPrompt)`: the deterministic
local fallback summarizer.  `customPrompt` is optional; the source guards
the custom-instructions block with JS truthiness (`if (customPrompt)`),
so an empty-string prompt behaves like an absent one. -/
def generateSimpleSummary (transcript : String) (customPrompt : Option String) : String :=
  let sentences := qualifyingFragments transcript
  let keyPoints := (sentences.take 5).map (fun s => bulletMarker ++ jsTrim s)
  let summary := "Summary:\n" ++ String.intercalate "\n" keyPoints
  if jsTruthy customPrompt then
    "Custom Instructions: " ++ customPrompt.getD "" ++ "\n\n" ++ summary
  else
    summary

/-- The function `generateSummary(transcript, customPrompt)` together with the number of
outbound completion-API calls it issues.  `groqApiKey` models
`process.env.GROQ_API_KEY`; `upstream` models the outcome of the `axios`
call (an exception, or the extracted `choices[0].message.content`): both a
rejected call and a malformed payload raise inside the `try`, and the
`catch` falls back to `generateSimpleSummary`. -/
def generateSummaryT (groqApiKey : Option String) (upstream : Except String String)
    (transcript : String) (customPrompt : Option String) : String × Nat :=
  if !(jsTruthy groqApiKey) then
    (generateSimpleSummary transcript customPrompt, 0)
  else
    match upstream with
    | Except.ok content => (content, 1)
    | Except.error _ => (generateSimpleSummary transcript customPrompt, 1)

/-- A `POST /api/summarize` request: an optional uploaded file (its decoded
text content), the optional `transcript` text field, and the optional
`customPrompt` field. -/
structure SummarizeRequest where
  file : Option String
  transcript : Option String
  customPrompt : Option String

/-- Response of the summarize endpoint: `res.json({success, summary,
originalText})` or `res.status(st).json({error})`. -/
inductive SummarizeResult where
  | success (summary : String) (originalText : String)
  | failure (status : Nat) (error : String)
deriving DecidableEq, Repr

/-- The transcript-selection ladder of the summarize route: a present
upload wins (`if (req.file)`), else a truthy `transcript` text field, else
no transcript.  The multer file object is truthy even when its buffer is
empty, while an empty-string text field is falsy. -/
def chooseTranscript (req : SummarizeRequest) : Option String :=
  match req.file with
  | some content => some content
  | none =>
    match req.transcript with
    | some t => if t = "" then none else some t
    | none => none

/-- The `POST /api/summarize` handler, instrumented with the number of
outbound completion calls issued. -/
def handleSummarize (req : SummarizeRequest) (groqApiKey : Option String)
    (upstream : Except String String) : SummarizeResult × Nat :=
  match chooseTranscript req with
  | none => (SummarizeResult.failure 400 "No transcript provided", 0)
  | some transcriptText =>
    if jsTrim transcriptText = "" then
      (SummarizeResult.failure 400 "Transcript is empty", 0)
    else
      let (summary, calls) := generateSummaryT groqApiKey upstream transcriptText req.customPrompt
      (SummarizeResult.success summary transcriptText, calls)

/-- The `recipients` field of a share request as a JSON-ish value: absent
(`undefined`), some non-array value (modelled by a string), or an array of
recipient addresses.  `Array.isArray` holds only for the third form; note
that an array is truthy even when empty (`![]` is `false` in JS). -/
inductive RecipientsVal where
  | absent
  | nonList (s : String)
  | list (rs : List String)
deriving DecidableEq, Repr

/-- The check `Array.isArray(recipients)`. -/
def RecipientsVal.isArray : RecipientsVal → Bool
  | RecipientsVal.list _ => true
  | _ => false

/-- JS truthiness of the `recipients` value: `undefined` is falsy, a string
is truthy iff non-empty, and every array (empty included) is truthy. -/
def RecipientsVal.truthy : RecipientsVal → Bool
  | RecipientsVal.absent => false
  | RecipientsVal.nonList s => s != ""
  | RecipientsVal.list _ => true

/-- A `POST /api/share` request body (the `subject`/`sender` fields do not
influence control flow and are omitted from the model). -/
structure ShareRequest where
  summary : Option String
  recipients : RecipientsVal

/-- Response of the share endpoint. -/
inductive ShareResult where
  | success (message : String)
  | failure (status : Nat) (error : String)
deriving DecidableEq, Repr

/-- Outcome of `sendEmail`: the console-logging fallback used when no
SendGrid key is configured (resolves `true` after a simulated delay, no
network call), a successful run of the per-recipient send loop, or a
thrown error.  `attempted` records the recipients for which a real
delivery call (`sgMail.send`) was issued, in order. -/
inductive EmailOutcome where
  | loggedOnly
  | sentAll (attempted : List String)
  | failed (attempted : List String) (err : String)
deriving DecidableEq, Repr

/-- The `for (const recipient of recipients) { await sgMail.send(msg) }`
loop: sends sequentially in list order, stopping at the first recipient
whose delivery call throws.  Returns the recipients attempted (in order)
and the loop's outcome.  `send` is the delivery oracle. -/
def sendLoop (send : String → Except String Unit) :
    List String → List String × Except String Unit
  | [] => ([], Except.ok ())
  | r :: rs =>
    match send r with
    | Except.ok _ =>
      let (attempted, result) := sendLoop send rs
      (r :: attempted, result)
    | Except.error e => ([r], Except.error e)

/-- The function `sendEmail(recipients, subject, summary, sender)`.  `sendgridApiKey`
models `process.env.SENDGRID_API_KEY`; a missing (or empty, hence falsy)
key selects the logging fallback, a key not starting with `"SG."` throws
`'Invalid SendGrid API key format'` before any delivery call, and
otherwise the sequential send loop runs. -/
def sendEmail (sendgridApiKey : Option String) (send : String → Except String Unit)
    (recipients : List String) : EmailOutcome :=
  if !(jsTruthy sendgridApiKey) then
    EmailOutcome.loggedOnly
  else if !(jsStartsWith (sendgridApiKey.getD "") "SG.") then
    EmailOutcome.failed [] "Invalid SendGrid API key format"
  else
    match sendLoop send recipients with
    | (attempted, Except.ok _) => EmailOutcome.sentAll attempted
    | (attempted, Except.error e) => EmailOutcome.failed attempted e

/-- The `POST /api/share` handler: validates
`!summary || !recipients || !Array.isArray(recipients)`, then awaits
`sendEmail`; a thrown error is caught and mapped to a 500 response.
Returns the response together with the recipients for which a real
delivery call was issued. -/
def handleShare (req : ShareRequest) (sendgridApiKey : Option String)
    (send : String → Except String Unit) : ShareResult × List String :=
  if !(jsTruthy req.summary) || !(req.recipients.truthy) || !(req.recipients.isArray) then
    (ShareResult.failure 400 "Invalid request data", [])
  else
    match req.recipients with
    | RecipientsVal.list rs =>
      match sendEmail sendgridApiKey send rs with
      | EmailOutcome.loggedOnly => (ShareResult.success "Summary shared successfully", [])
      | EmailOutcome.sentAll attempted =>
        (ShareResult.success "Summary shared successfully", attempted)
      | EmailOutcome.failed attempted _ =>
        (ShareResult.failure 500 "Failed to send email", attempted)
    | _ => (ShareResult.failure 400 "Invalid request data", [])

-- sanity checks against the spec's worked example and the JS split semantics
example :
    generateSimpleSummary
      "We discussed the budget. It was long. Nothing else matters here really. This is fragment four. This is the fifth one."
      none =
    "Summary:\n• We discussed the budget\n• It was long\n• Nothing else matters here really\n• This is fragment four\n• This is the fifth one" := by
  decide

example : sentenceFragments "a..b" = ["a", "b"] := by decide
example : sentenceFragments "" = [""] := by decide
example : sentenceFragments "a." = ["a", ""] := by decide
example : sentenceFragments ". ." = ["", " ", ""] := by decide

/-- The text of `s` before its first newline. -/
def firstLine (s : String) : String :=
  String.mk (s.data.takeWhile (fun c => c != '\n'))

lemma firstLine_summary_header (r : String) :
    firstLine ("Summary:\n" ++ r) = "Summary:" := by
  simp only [firstLine, String.data_append]
  rfl

/-- C4: for every transcript and non-empty customPrompt, the fallback
summarizer's output is literally `Custom Instructions: ` followed by the
prompt, a newline, a blank line, and then the `Summary:` block; with no
customPrompt the output begins directly with the `Summary:` block. -/
theorem fallback_customPrompt_block (t p : String) (hp : p ≠ "") :
    generateSimpleSummary t (some p) =
      "Custom Instructions: " ++ p ++ "\n\n" ++ generateSimpleSummary t none ∧
    ∃ rest, generateSimpleSummary t none = "Summary:\n" ++ rest := by
  constructor
  · simp [generateSimpleSummary, jsTruthy, hp]
  · exact ⟨_, rfl⟩

theorem fallback_customPrompt_block_witness :
    generateSimpleSummary "The quarterly results were discussed at length." (some "Focus on actions") =
      "Custom Instructions: " ++ "Focus on actions" ++ "\n\n" ++
        generateSimpleSummary "The quarterly results were discussed at length." none ∧
    ∃ rest, generateSimpleSummary "The quarterly results were discussed at length." none =
      "Summary:\n" ++ rest :=
  fallback_customPrompt_block _ _ (by decide)

/-- C5: the fallback summarizer is deterministic — as a pure function of
the pair (transcript, customPrompt), two runs on identical inputs produce
identical output (the embedding has no randomness, environment or locale
parameter for it to depend on). -/
theorem fallback_deterministic (t₁ t₂ : String) (p₁ p₂ : Option String)
    (ht : t₁ = t₂) (hp : p₁ = p₂) :
    generateSimpleSummary t₁ p₁ = generateSimpleSummary t₂ p₂ := by
  rw [ht, hp]

theorem fallback_deterministic_witness :
    generateSimpleSummary "We agreed on the new deadline." none =
      generateSimpleSummary "We agreed on the new deadline." none :=
  fallback_deterministic _ _ _ _ rfl rfl

/-- C7: for every request whose transcript is non-empty (so validation
passes), whenever no completion credential is configured or the upstream
completion call errors, the summarize handler responds with the
deterministic local fallback summary as a success, never an error. -/
theorem summarize_swallows_upstream_failure (req : SummarizeRequest)
    (groqApiKey : Option String) (upstream : Except String String) (t : String)
    (hchoose : chooseTranscript req = some t) (hne : ¬ jsTrim t = "")
    (hfail : jsTruthy groqApiKey = false ∨ ∃ e, upstream = Except.error e) :
    (handleSummarize req groqApiKey upstream).1 =
      SummarizeResult.success (generateSimpleSummary t req.customPrompt) t := by
  rcases hfail with hk | ⟨e, rfl⟩
  · simp [handleSummarize, hchoose, hne, generateSummaryT, hk]
  · cases hk : jsTruthy groqApiKey <;>
      simp [handleSummarize, hchoose, hne, generateSummaryT, hk]

theorem summarize_swallows_upstream_failure_witness :
    (handleSummarize ⟨none, some "The completion service is down today.", none⟩
        (some "gsk_key") (Except.error "ECONNREFUSED")).1 =
      SummarizeResult.success
        (generateSimpleSummary "The completion service is down today." none)
        "The completion service is down today." :=
  summarize_swallows_upstream_failure _ _ _ _ (by decide) (by decide)
    (Or.inr ⟨"ECONNREFUSED", rfl⟩)

/-- C10: when a summarize request carries both an uploaded file and a
transcript text field, the file's content is the transcript used and the
text field is ignored: the handler behaves exactly as if the text field
were absent. -/
theorem summarize_file_precedence (f : String) (txt cp : Option String)
    (groqApiKey : Option String) (upstream : Except String String) :
    chooseTranscript ⟨some f, txt, cp⟩ = some f ∧
    handleSummarize ⟨some f, txt, cp⟩ groqApiKey upstream =
      handleSummarize ⟨some f, none, cp⟩ groqApiKey upstream := by
  exact ⟨rfl, rfl⟩

/-- C9: when a delivery credential is configured (truthy) but does not
start with `SG.`, `sendEmail` throws before any per-recipient delivery
call — it neither reaches the logging fallback nor sends anything — and
the share handler reports the aggregate 500 failure to the caller. -/
theorem share_malformed_key (s k : String) (rs : List String)
    (send : String → Except String Unit)
    (hs : s ≠ "") (hk : k ≠ "") (hsg : jsStartsWith k "SG." = false) :
    sendEmail (some k) send rs = EmailOutcome.failed [] "Invalid SendGrid API key format" ∧
    handleShare ⟨some s, RecipientsVal.list rs⟩ (some k) send =
      (ShareResult.failure 500 "Failed to send email", []) := by
  have hse : sendEmail (some k) send rs =
      EmailOutcome.failed [] "Invalid SendGrid API key format" := by
    simp [sendEmail, jsTruthy, hk, hsg]
  refine ⟨hse, ?_⟩
  simp [handleShare, RecipientsVal.truthy, RecipientsVal.isArray, jsTruthy, hs, hse]

theorem share_malformed_key_witness :
    sendEmail (some "WRONGKEY") (fun _ => Except.ok ()) ["a@example.com"] =
      EmailOutcome.failed [] "Invalid SendGrid API key format" ∧
    handleShare ⟨some "the summary", RecipientsVal.list ["a@example.com"]⟩
        (some "WRONGKEY") (fun _ => Except.ok ()) =
      (ShareResult.failure 500 "Failed to send email", []) :=
  share_malformed_key _ _ _ _ (by decide) (by decide) (by decide)

/-- C2: for every transcript with at least 5 fragments of trimmed length
greater than 10, the fallback summary (no custom prompt) is the literal
header line `Summary:` followed by exactly 5 bulleted entries — the first
5 qualifying fragments in their original transcript order, each the
bullet marker followed by the trimmed fragment text unchanged. -/
theorem fallback_five_bullets (t : String)
    (h : 5 ≤ (qualifyingFragments t).length) :
    generateSimpleSummary t none =
      "Summary:\n" ++ String.intercalate "\n"
        (((qualifyingFragments t).take 5).map (fun s => bulletMarker ++ jsTrim s)) ∧
    (((qualifyingFragments t).take 5).map (fun s => bulletMarker ++ jsTrim s)).length = 5 ∧
    firstLine (generateSimpleSummary t none) = "Summary:" ∧
    (qualifyingFragments t).Sublist (sentenceFragments t) := by
  refine ⟨rfl, ?_, firstLine_summary_header _, List.filter_sublist _⟩
  simp only [List.length_map, List.length_take]
  omega

theorem fallback_five_bullets_witness :
    5 ≤ (qualifyingFragments "We discussed the budget. It was long. Nothing else matters here really. This is fragment four. This is the fifth one. And a sixth fragment appears.").length ∧
    (((qualifyingFragments "We discussed the budget. It was long. Nothing else matters here really. This is fragment four. This is the fifth one. And a sixth fragment appears.").take 5).map
        (fun s => bulletMarker ++ jsTrim s)).length = 5 :=
  ⟨by decide, (fallback_five_bullets _ (by decide)).2.1⟩

/-- C3: for every transcript with fewer than 5 qualifying fragments, the
fallback summary keeps exactly the qualifying fragments (every fragment of
trimmed length at most 10 is discarded) and has exactly as many bulleted
entries as there are qualifying fragments, between 0 and 4. -/
theorem fallback_under_five_bullets (t : String)
    (h : (qualifyingFragments t).length < 5) :
    generateSimpleSummary t none =
      "Summary:\n" ++ String.intercalate "\n"
        ((qualifyingFragments t).map (fun s => bulletMarker ++ jsTrim s)) ∧
    ((qualifyingFragments t).map (fun s => bulletMarker ++ jsTrim s)).length =
      (qualifyingFragments t).length ∧
    (qualifyingFragments t).length ≤ 4 ∧
    ∀ s ∈ sentenceFragments t, (jsTrim s).length ≤ 10 → s ∉ qualifyingFragments t := by
  have htake : (qualifyingFragments t).take 5 = qualifyingFragments t :=
    List.take_of_length_le (by omega)
  refine ⟨?_, List.length_map _ _, by omega, ?_⟩
  · calc generateSimpleSummary t none
        = "Summary:\n" ++ String.intercalate "\n"
            (((qualifyingFragments t).take 5).map (fun s => bulletMarker ++ jsTrim s)) := rfl
      _ = _ := by rw [htake]
  · intro s _ hshort hmem
    have : (jsTrim s).length > 10 := by
      have := List.of_mem_filter (p := fun s => (jsTrim s).length > 10) hmem
      simpa using this
    omega

theorem fallback_under_five_bullets_witness :
    (qualifyingFragments "Yes. This fragment is long enough. No. Another sufficiently long fragment!").length < 5 ∧
    ((qualifyingFragments "Yes. This fragment is long enough. No. Another sufficiently long fragment!").map
        (fun s => bulletMarker ++ jsTrim s)).length =
      (qualifyingFragments "Yes. This fragment is long enough. No. Another sufficiently long fragment!").length :=
  ⟨by decide, (fallback_under_five_bullets _ (by decide)).2.1⟩

lemma sendLoop_all_ok (send : String → Except String Unit) (l : List String)
    (h : ∀ x ∈ l, send x = Except.ok ()) :
    sendLoop send l = (l, Except.ok ()) := by
  induction l with
  | nil => rfl
  | cons a as ih =>
    have ha := h a (List.mem_cons_self a as)
    simp only [sendLoop, ha]
    rw [ih (fun x hx => h x (List.mem_cons_of_mem a hx))]

lemma sendLoop_first_error (send : String → Except String Unit)
    (pre : List String) (r : String) (post : List String) (e : String)
    (hpre : ∀ x ∈ pre, send x = Except.ok ()) (hr : send r = Except.error e) :
    sendLoop send (pre ++ r :: post) = (pre ++ [r], Except.error e) := by
  induction pre with
  | nil => simp [sendLoop, hr]
  | cons a as ih =>
    have ha := hpre a (List.mem_cons_self a as)
    simp only [List.cons_append, sendLoop, ha, List.append_eq]
    rw [ih (fun x hx => hpre x (List.mem_cons_of_mem a hx))]

/-- C8: with a well-formed delivery credential configured, delivery calls
are issued one per recipient, sequentially in list order: when every call
succeeds, every recipient is attempted in order and the handler reports
success; when the call for some recipient errors, the recipients attempted
are exactly the preceding ones plus the failing one — none after it — and
the handler reports the single aggregate 500 `Failed to send email`. -/
theorem share_sequential_abort_on_failure (s k : String)
    (send : String → Except String Unit)
    (hs : s ≠ "") (hk : jsStartsWith k "SG." = true) :
    (∀ rs, (∀ x ∈ rs, send x = Except.ok ()) →
      handleShare ⟨some s, RecipientsVal.list rs⟩ (some k) send =
        (ShareResult.success "Summary shared successfully", rs)) ∧
    (∀ pre r post e, (∀ x ∈ pre, send x = Except.ok ()) → send r = Except.error e →
      handleShare ⟨some s, RecipientsVal.list (pre ++ r :: post)⟩ (some k) send =
        (ShareResult.failure 500 "Failed to send email", pre ++ [r])) := by
  have hk0 : k ≠ "" := by
    rintro rfl
    exact absurd hk (by decide)
  constructor
  · intro rs hok
    simp [handleShare, RecipientsVal.truthy, RecipientsVal.isArray, jsTruthy, hs,
      sendEmail, hk0, hk, sendLoop_all_ok send rs hok]
  · intro pre r post e hpre hr
    simp [handleShare, RecipientsVal.truthy, RecipientsVal.isArray, jsTruthy, hs,
      sendEmail, hk0, hk, sendLoop_first_error send pre r post e hpre hr]

theorem share_sequential_abort_on_failure_witness :
    handleShare
        ⟨some "the summary",
         RecipientsVal.list ["a@example.com", "bad@example.com", "c@example.com"]⟩
        (some "SG.valid")
        (fun x => if x = "bad@example.com" then Except.error "rejected" else Except.ok ()) =
      (ShareResult.failure 500 "Failed to send email", ["a@example.com", "bad@example.com"]) :=
  (share_sequential_abort_on_failure "the summary" "SG.valid" _ (by decide) (by decide)).2
    ["a@example.com"] "bad@example.com" ["c@example.com"] "rejected"
    (by intro x hx; obtain rfl := List.mem_singleton.mp hx; rfl) rfl

lemma sendEmail_nil (key : Option String) (send : String → Except String Unit) :
    sendEmail key send [] = EmailOutcome.loggedOnly ∨
    sendEmail key send [] = EmailOutcome.sentAll [] ∨
    sendEmail key send [] = EmailOutcome.failed [] "Invalid SendGrid API key format" := by
  unfold sendEmail
  split
  · exact Or.inl rfl
  · split
    · exact Or.inr (Or.inr rfl)
    · exact Or.inr (Or.inl rfl)

/-- C1 is refuted as stated: a share request whose `recipients` value is
the empty array passes the `!summary || !recipients ||
!Array.isArray(recipients)` validation (an empty array is truthy in JS and
is an array), so the handler responds with success rather than with the
400 `Invalid request data` — though indeed no per-recipient send call is
issued. -/
theorem share_empty_recipients_counterexample :
    handleShare ⟨some "meeting notes", RecipientsVal.list []⟩ none (fun _ => Except.ok ()) =
      (ShareResult.success "Summary shared successfully", []) ∧
    (handleShare ⟨some "meeting notes", RecipientsVal.list []⟩ none (fun _ => Except.ok ())).1 ≠
      ShareResult.failure 400 "Invalid request data" := by
  exact ⟨rfl, by decide⟩

/-- C1 (amended): a share request whose `recipients` value is not a list,
or whose summary is missing/empty, is rejected with the 400
`Invalid request data` and no delivery call is issued; a request whose
`recipients` is the empty list instead passes validation, and no
per-recipient send call is issued for it either. -/
theorem share_validation (req : ShareRequest) (key : Option String)
    (send : String → Except String Unit) :
    (req.recipients.isArray = false →
      handleShare req key send = (ShareResult.failure 400 "Invalid request data", [])) ∧
    (jsTruthy req.summary = false →
      handleShare req key send = (ShareResult.failure 400 "Invalid request data", [])) ∧
    (req.recipients = RecipientsVal.list [] → (handleShare req key send).2 = []) := by
  obtain ⟨sm, r⟩ := req
  refine ⟨?_, ?_, ?_⟩
  · intro hr
    cases r with
    | absent => simp [handleShare, RecipientsVal.truthy, RecipientsVal.isArray]
    | nonList s => simp [handleShare, RecipientsVal.truthy, RecipientsVal.isArray]
    | list rs => simp [RecipientsVal.isArray] at hr
  · intro hsm
    cases r <;> simp [handleShare, hsm, RecipientsVal.truthy, RecipientsVal.isArray]
  · rintro rfl
    cases hsm : jsTruthy sm with
    | false => simp [handleShare, hsm]
    | true =>
      rcases sendEmail_nil key send with h | h | h <;>
        simp [handleShare, hsm, RecipientsVal.truthy, RecipientsVal.isArray, h]

theorem share_validation_witness :
    handleShare ⟨some "meeting notes", RecipientsVal.nonList "a@example.com"⟩ none
        (fun _ => Except.ok ()) =
      (ShareResult.failure 400 "Invalid request data", []) ∧
    handleShare ⟨none, RecipientsVal.list ["a@example.com"]⟩ none (fun _ => Except.ok ()) =
      (ShareResult.failure 400 "Invalid request data", []) ∧
    (handleShare ⟨some "meeting notes", RecipientsVal.list []⟩ (some "SG.key")
        (fun _ => Except.ok ())).2 = [] :=
  ⟨(share_validation _ _ _).1 rfl, (share_validation _ _ _).2.1 rfl,
   (share_validation _ _ _).2.2 rfl⟩

/-- C6 is refuted as stated: a summarize request that supplies the
`transcript` text field as the empty string (with no uploaded file) is
caught by the JS truthiness ladder, not by the trim check, so the handler
responds with `No transcript provided` rather than `Transcript is empty`. -/
theorem summarize_empty_text_counterexample :
    handleSummarize ⟨none, some "", none⟩ none (Except.ok "sum") =
      (SummarizeResult.failure 400 "No transcript provided", 0) ∧
    (handleSummarize ⟨none, some "", none⟩ none (Except.ok "sum")).1 ≠
      SummarizeResult.failure 400 "Transcript is empty" := by
  exact ⟨rfl, by decide⟩

/-- C6 (amended): a summarize request whose transcript is absent — or is
supplied as the empty string in the text field with no file, which JS
truthiness treats as absent — yields the 400 `No transcript provided`; a
request whose selected transcript is non-empty but trims to the empty
string yields the 400 `Transcript is empty`; in both cases no outbound
completion call is attempted. -/
theorem summarize_validation (req : SummarizeRequest) (groqApiKey : Option String)
    (upstream : Except String String) :
    (req.file = none → jsTruthy req.transcript = false →
      handleSummarize req groqApiKey upstream =
        (SummarizeResult.failure 400 "No transcript provided", 0)) ∧
    (∀ t, chooseTranscript req = some t → jsTrim t = "" →
      handleSummarize req groqApiKey upstream =
        (SummarizeResult.failure 400 "Transcript is empty", 0)) := by
  obtain ⟨f, tr, cp⟩ := req
  constructor
  · intro hf ht
    replace hf : f = none := hf
    replace ht : jsTruthy tr = false := ht
    subst hf
    have hc : chooseTranscript ⟨none, tr, cp⟩ = none := by
      cases tr with
      | none => rfl
      | some t =>
        simp [jsTruthy] at ht
        simp [chooseTranscript, ht]
    simp [handleSummarize, hc]
  · intro t hc htrim
    simp [handleSummarize, hc, htrim]

theorem summarize_validation_witness :
    handleSummarize ⟨none, none, none⟩ none (Except.ok "sum") =
      (SummarizeResult.failure 400 "No transcript provided", 0) ∧
    handleSummarize ⟨none, some " \n ", none⟩ none (Except.ok "sum") =
      (SummarizeResult.failure 400 "Transcript is empty", 0) :=
  ⟨(summarize_validation _ _ _).1 rfl rfl,
   (summarize_validation _ _ _).2 " \n " (by decide) (by decide)⟩
